import Mathlib

/-!
Verification of the weather-py provider core.

This file gives a shallow embedding of the weather-provider core of the
repository (the WeatherAPIProvider operations of
src/services/weatherapi_provider.py together with the enrichment helpers of
src/services/safety_features.py, src/services/astronomy_features.py and
src/examples/safety_features_implementation.py), and proves the stated
properties about it.

Modelling conventions:
- Upstream JSON payloads are values of the inductive type JVal; Python dict
  access with a default (d.get(k, v)) is JVal.getD.
- The HTTP adapter (WeatherAPIProvider._make_request) is modelled by an
  oracle of type Request -> ReqOutcome: an outcome is either a JSON payload
  (2xx), notFound (HTTP 400, which _make_request converts to None), or err
  (a raised WeatherServiceError).
- The bounded TTL caches are modelled as association lists from cache-key
  strings to cached values; time-to-live expiry and capacity eviction are
  not modelled, only the presence or absence of a key.
- Wall-clock dates (datetime.now().date()) are passed explicitly as a
  today parameter; instants (datetime.now()) as an integer parameter.
- Each provider operation additionally returns the list of upstream
  requests it issued, so that claims about which endpoint is called, and
  how often, are expressible.
-/

/-- JSON values as delivered by the upstream weather API.  Numbers are
modelled as rationals (covering both ints and floats of the source). -/
inductive JVal where
  | null : JVal
  | num (q : ℚ) : JVal
  | str (s : String) : JVal
  | arr (xs : List JVal) : JVal
  | obj (fs : List (String × JVal)) : JVal

namespace JVal

/-- Python truthiness of a JSON value: None, 0, empty string, empty list
and empty dict are falsy, everything else truthy. -/
def truthy : JVal → Bool
  | .null => false
  | .num q => q != 0
  | .str s => s != ""
  | .arr xs => !xs.isEmpty
  | .obj fs => !fs.isEmpty

/-- Python dict get with a default: d.get(key, default).  The provider only
applies it to dict receivers; a non-dict receiver yields the default. -/
def getD (j : JVal) (key : String) (default : JVal) : JVal :=
  match j with
  | .obj fs =>
    match fs.lookup key with
    | some v => v
    | none => default
  | _ => default

/-- String-valued dict access with a default, d.get(key, default), used
where the source feeds the value into string formatting.  The payloads in
scope carry strings at these keys; a non-string value yields the default. -/
def getStrD (j : JVal) (key : String) (default : String) : String :=
  match j.getD key (.str default) with
  | .str s => s
  | _ => default

/-- Numeric dict access with a default, d.get(key, default), used where the
source compares the value numerically.  The payloads in scope carry numbers
at these keys; a non-numeric value yields the default. -/
def getNumD (j : JVal) (key : String) (default : ℚ) : ℚ :=
  match j.getD key (.num default) with
  | .num q => q
  | _ => default

/-- Python equality of a JSON value against a number literal: only a
numeric value can compare equal to a number; anything else is unequal
(never an error). -/
def pyEqNum (j : JVal) (q : ℚ) : Bool :=
  match j with
  | .num r => r == q
  | _ => false

end JVal

/-- Calendar dates, as produced by datetime.date. -/
structure Date where
  y : Nat
  m : Nat
  d : Nat
deriving DecidableEq, Repr

namespace Date

/-- Strict ordering of dates, as Python date comparison (lexicographic on
year, month, day; both sides are valid calendar dates wherever used). -/
def lt (a b : Date) : Bool :=
  a.y < b.y ∨ (a.y = b.y ∧ (a.m < b.m ∨ (a.m = b.m ∧ a.d < b.d)))

/-- Length of a month in the proleptic Gregorian calendar, as used by
datetime for validity checking. -/
def daysInMonth (y m : Nat) : Nat :=
  if m = 2 then
    if (y % 4 = 0 ∧ y % 100 ≠ 0) ∨ y % 400 = 0 then 29 else 28
  else if m = 4 ∨ m = 6 ∨ m = 9 ∨ m = 11 then 30
  else 31

/-- The previous calendar day. -/
def pred (a : Date) : Date :=
  if 1 < a.d then ⟨a.y, a.m, a.d - 1⟩
  else if 1 < a.m then ⟨a.y, a.m - 1, daysInMonth a.y (a.m - 1)⟩
  else ⟨a.y - 1, 12, 31⟩

/-- Subtraction of whole days, datetime.now() - timedelta(days=n) at the
date level. -/
def subDays (a : Date) : Nat → Date
  | 0 => a
  | n + 1 => (pred a).subDays n

/-- Zero padding to two digits, as strftime field formatting. -/
def pad2 (n : Nat) : String :=
  if n < 10 then "0" ++ toString n else toString n

/-- Zero padding to four digits, as strftime year formatting. -/
def pad4 (n : Nat) : String :=
  if n < 10 then "000" ++ toString n
  else if n < 100 then "00" ++ toString n
  else if n < 1000 then "0" ++ toString n
  else toString n

/-- Formatting of a date with strftime format YYYY-MM-DD. -/
def fmt (a : Date) : String :=
  pad4 a.y ++ "-" ++ pad2 a.m ++ "-" ++ pad2 a.d

end Date

/-- Value of a list of decimal digit characters. -/
def digitsVal (cs : List Char) : Nat :=
  cs.foldl (fun acc c => acc * 10 + (c.toNat - 48)) 0

/-- Test that a string is entirely decimal digits and non-empty. -/
def allDigits (cs : List Char) : Bool :=
  !cs.isEmpty && cs.all Char.isDigit

/-- Splitting of a character list at dashes, with an accumulator for the
current segment; the char-level counterpart of splitting a string on a
one-character separator. -/
def splitDash (cs : List Char) (acc : List Char) : List (List Char) :=
  match cs with
  | [] => [acc.reverse]
  | c :: rest =>
    if c = '-' then acc.reverse :: splitDash rest []
    else splitDash rest (c :: acc)

/-- Parsing of a date with datetime.strptime(s, %Y-%m-%d): four year
digits, one or two month digits in 1..12, one or two day digits valid for
the month, nothing else; None on any mismatch (the source catches the
ValueError). -/
def parseDate (s : String) : Option Date :=
  match splitDash s.toList [] with
  | [yc, mc, dc] =>
    if allDigits yc ∧ allDigits mc ∧ allDigits dc ∧
        yc.length = 4 ∧ mc.length ≤ 2 ∧ dc.length ≤ 2 then
      let y := digitsVal yc
      let m := digitsVal mc
      let d := digitsVal dc
      if 1 ≤ y ∧ 1 ≤ m ∧ m ≤ 12 ∧ 1 ≤ d ∧ d ≤ Date.daysInMonth y m then
        some ⟨y, m, d⟩
      else none
    else none
  | _ => none

/-- Upstream request issued through the HTTP adapter: endpoint path and
query parameters (the API key, added uniformly by _make_request, is
omitted). -/
structure Request where
  endpoint : String
  params : List (String × JVal)

/-- Outcome of one upstream request as seen through _make_request: a JSON
payload on 2xx, notFound on HTTP 400 (returned by _make_request as None),
err for a raised WeatherServiceError (transport failure, non-2xx other
than 400, or missing API key). -/
inductive ReqOutcome where
  | ok (data : JVal) : ReqOutcome
  | notFound : ReqOutcome
  | err : ReqOutcome

/-- Lower-casing followed by whitespace stripping at both ends, as the
str.lower().strip() normalization applied to each cache key argument. -/
def pyLowerStrip (s : String) : String :=
  String.mk
    ((((s.toList.map Char.toLower).dropWhile Char.isWhitespace).reverse.dropWhile
        Char.isWhitespace).reverse)

/-- Cache key derivation WeatherAPIProvider._cache_key: lower-case and trim
each argument and join with colons. -/
def cacheKey (args : List String) : String :=
  String.intercalate ":" (args.map pyLowerStrip)

/-! Provider operations (src/services/weatherapi_provider.py).  Each
operation takes the request oracle, its own cache, and its arguments, and
returns its result, the updated cache, and the list of upstream requests
it issued. -/

/-- Forecast request issued by get_weather_data: forecast.json with three
days, air quality and alerts. -/
def forecastReq (location : String) : Request :=
  ⟨"forecast.json", [("q", .str location), ("days", .num 3),
                     ("aqi", .str "yes"), ("alerts", .str "yes")]⟩

/-- History request issued by _get_history and get_hourly_forecast:
history.json with a location and a date. -/
def histReq (location dt : String) : Request :=
  ⟨"history.json", [("q", .str location), ("dt", .str dt)]⟩

/-- Loop body collection of WeatherAPIProvider._get_history: for each day
offset i in 1..days, request history.json for today minus i days; a raised
service error is skipped (continue), a 400 yields data None which fails the
truthiness test, and only truthy payloads are appended, in loop order. -/
def get_history (fetch : Request → ReqOutcome) (location : String)
    (today : Date) (days : Nat) : List JVal :=
  (List.range' 1 days).foldl
    (fun acc i =>
      match fetch (histReq location (Date.fmt (today.subDays i))) with
      | .ok data => if data.truthy then acc ++ [data] else acc
      | .notFound => acc
      | .err => acc)
    []

/-- WeatherAPIProvider.get_weather_data: on a cache miss, one 3-day
forecast call (None if it raises or returns falsy data), then the 7-day
history loop, then assembly of the bundle, which is cached. -/
def get_weather_data (fetch : Request → ReqOutcome) (today : Date)
    (cache : List (String × JVal)) (location : String) :
    Option JVal × List (String × JVal) :=
  let key := cacheKey ["weather", location]
  match cache.lookup key with
  | some v => (some v, cache)
  | none =>
    match fetch (forecastReq location) with
    | .err => (none, cache)
    | .notFound => (none, cache)
    | .ok d =>
      if !d.truthy then (none, cache)
      else
        let hist := get_history fetch location today 7
        let result : JVal := .obj
          [("location", d.getD "location" (.obj [])),
           ("current", d.getD "current" (.obj [])),
           ("forecast", d.getD "forecast" (.obj [])),
           ("alerts", d.getD "alerts" (.obj [])),
           ("history", .arr hist)]
        (some result, (key, result) :: cache)

/-- Validation request issued by validate_location: current.json with only
the location. -/
def validateReq (location : String) : Request :=
  ⟨"current.json", [("q", .str location)]⟩

/-- WeatherAPIProvider.validate_location: on a cache miss, one current.json
call; truthy data yields (True, location block) which is cached; falsy
data, 400 and raised service errors all yield (False, None) uncached. -/
def validate_location (fetch : Request → ReqOutcome)
    (cache : List (String × (Bool × Option JVal))) (location : String) :
    (Bool × Option JVal) × List (String × (Bool × Option JVal)) × List Request :=
  let key := cacheKey ["validate", location]
  match cache.lookup key with
  | some v => (v, cache, [])
  | none =>
    let req := validateReq location
    match fetch req with
    | .err => ((false, none), cache, [req])
    | .notFound => ((false, none), cache, [req])
    | .ok data =>
      if data.truthy then
        let result := (true, some (data.getD "location" (.obj [])))
        (result, (key, result) :: cache, [req])
      else ((false, none), cache, [req])

/-- Location search result record (src/services/weather_service.py,
dataclass SearchResult). -/
structure SearchResult where
  name : String
  region : String
  country : String
  display : String
  value : String
deriving DecidableEq

/-- Construction of one SearchResult from one upstream search item, as in
the loop body of search_locations: the display string is an f-string
joining name, region and country with commas, and value repeats name. -/
def mkSearchResult (item : JVal) : SearchResult :=
  let name := item.getStrD "name" ""
  let region := item.getStrD "region" ""
  let country := item.getStrD "country" ""
  { name := name
    region := region
    country := country
    display := name ++ ", " ++ region ++ ", " ++ country
    value := name }

/-- Python list slicing xs[:limit] for an int limit: a nonnegative limit
keeps the first limit elements, a negative limit drops that many from the
end (clamped at empty). -/
def pySlice (xs : List JVal) (limit : Int) : List JVal :=
  if 0 ≤ limit then xs.take limit.toNat
  else xs.take (xs.length - (-limit).toNat)

/-- Search request issued by search_locations: search.json with the
query. -/
def searchReq (query : String) : Request :=
  ⟨"search.json", [("q", .str query)]⟩

/-- WeatherAPIProvider.search_locations: queries shorter than two
characters return empty with no call; on a cache miss, one search.json
call; falsy data (errors, 400, or an empty upstream list) returns empty
uncached; otherwise the items sliced to the limit are mapped to
SearchResult and the mapped list is cached.  A truthy non-list payload is
modelled as having no items. -/
def search_locations (fetch : Request → ReqOutcome)
    (cache : List (String × List SearchResult)) (query : String) (limit : Int) :
    List SearchResult × List (String × List SearchResult) × List Request :=
  if query = "" ∨ query.length < 2 then ([], cache, [])
  else
    let key := cacheKey ["search", query, toString limit]
    match cache.lookup key with
    | some v => (v, cache, [])
    | none =>
      let req := searchReq query
      match fetch req with
      | .err => ([], cache, [req])
      | .notFound => ([], cache, [req])
      | .ok data =>
        if !data.truthy then ([], cache, [req])
        else
          let items := match data with | .arr xs => xs | _ => []
          let results := (pySlice items limit).map mkSearchResult
          (results, (key, results) :: cache, [req])

/-- Forecast-endpoint request issued by get_hourly_forecast for a single
date. -/
def hourlyForecastReq (location dt : String) : Request :=
  ⟨"forecast.json", [("q", .str location), ("dt", .str dt)]⟩

/-- First element of the forecastday list, or an empty dict when the list
is empty, as forecast_days[0] if forecast_days else an empty dict. -/
def firstForecastDay (fds : JVal) : JVal :=
  match fds with
  | .arr (x :: _) => x
  | _ => .obj []

/-- WeatherAPIProvider.get_hourly_forecast: on a cache miss, parse the date
(None when unparseable); request forecast.json when the target date is
strictly after today and history.json otherwise; on truthy data extract
the single day's hour array, day summary and astronomy block, and cache
the assembled result. -/
def get_hourly_forecast (fetch : Request → ReqOutcome) (today : Date)
    (cache : List (String × JVal)) (location dateStr : String) :
    Option JVal × List (String × JVal) × List Request :=
  let key := cacheKey ["hourly", location, dateStr]
  match cache.lookup key with
  | some v => (some v, cache, [])
  | none =>
    match parseDate dateStr with
    | none => (none, cache, [])
    | some target =>
      let req :=
        if Date.lt today target then hourlyForecastReq location dateStr
        else histReq location dateStr
      match fetch req with
      | .err => (none, cache, [req])
      | .notFound => (none, cache, [req])
      | .ok data =>
        if !data.truthy then (none, cache, [req])
        else
          let fd := firstForecastDay
            ((data.getD "forecast" (.obj [])).getD "forecastday" (.arr []))
          let result : JVal := .obj
            [("location", data.getD "location" (.obj [])),
             ("date", .str dateStr),
             ("hourly", fd.getD "hour" (.arr [])),
             ("day_summary", fd.getD "day" (.obj [])),
             ("astronomy", fd.getD "astro" (.obj []))]
          (some result, (key, result) :: cache, [req])

/-- Geolocation request issued by get_current_location_by_ip. -/
def ipReq (query : String) : Request :=
  ⟨"ip.json", [("q", .str query)]⟩

/-- Current-conditions request issued by get_current_location_by_ip for the
resolved city. -/
def ipWeatherReq (city : String) : Request :=
  ⟨"current.json", [("q", .str city), ("aqi", .str "yes")]⟩

/-- Query selection of get_current_location_by_ip: a falsy (absent or
empty) ip argument falls back to the sentinel auto:ip. -/
def ipQuery (ip : Option String) : String :=
  match ip with
  | some s => if s = "" then "auto:ip" else s
  | none => "auto:ip"

/-- WeatherAPIProvider.get_current_location_by_ip, body: the geolocation
call, the truthiness gate, the city resolution with its London fallback,
and the follow-up current-conditions call. -/
def get_current_location_by_ip (fetch : Request → ReqOutcome)
    (ip : Option String) : Option JVal × List Request :=
  let req1 := ipReq (ipQuery ip)
  match fetch req1 with
  | .err => (none, [req1])
  | .notFound => (none, [req1])
  | .ok ipData =>
    if !ipData.truthy then (none, [req1])
    else
      let city := ipData.getStrD "city" "London"
      let req2 := ipWeatherReq city
      match fetch req2 with
      | .err => (none, [req1, req2])
      | .notFound =>
        (some (.obj [("user_info", ipData), ("current_weather", .null)]),
         [req1, req2])
      | .ok w =>
        (some (.obj [("user_info", ipData), ("current_weather", w)]),
         [req1, req2])

/-! Enrichment helpers: safety features (src/services/safety_features.py
and src/examples/safety_features_implementation.py) and astronomy
(src/services/astronomy_features.py). -/

/-- UV classification record returned by get_uv_info: the raw value plus
level, color, recommendation and icon. -/
structure UVInfo where
  value : ℚ
  level : String
  color : String
  recommendation : String
  icon : String
deriving DecidableEq

/-- Band selection shared by the UV classifiers: the five fixed
breakpoints at 2, 5, 7 and 10 with their level, color, recommendation and
icon, as the if-elif chain of get_uv_info. -/
def uvBand (uv : ℚ) : String × String × String × String :=
  if uv ≤ 2 then
    ("Low", "#289500",
     "Minimal protection needed. Wear sunglasses on bright days.", "🟢")
  else if uv ≤ 5 then
    ("Moderate", "#F7E400",
     "Protection required. Wear sunscreen SPF 30+, hat, and sunglasses.", "🟡")
  else if uv ≤ 7 then
    ("High", "#F85900",
     "Protection essential. Seek shade during midday. Sunscreen, hat, and sunglasses required.", "🟠")
  else if uv ≤ 10 then
    ("Very High", "#D8001D",
     "Extra protection required. Avoid sun 10am-4pm. Sunscreen SPF 50+, protective clothing required.", "🔴")
  else
    ("Extreme", "#6B49C8",
     "Take all precautions. Avoid sun exposure. Unprotected skin can burn in minutes.", "🟣")

/-- Enrichment helper get_uv_info (src/services/safety_features.py): reads
the uv value with default 0, classifies it through the five bands, and
echoes the raw value unchanged in the result. -/
def get_uv_info (current_data : JVal) : UVInfo :=
  let uv := current_data.getNumD "uv" 0
  let b := uvBand uv
  { value := uv, level := b.1, color := b.2.1,
    recommendation := b.2.2.1, icon := b.2.2.2 }

/-- UV classification record of the dataclass UVIndexInfo
(src/examples/safety_features_implementation.py); level names are the
UVLevel enum values. -/
structure UVIndexInfo where
  value : ℚ
  level : String
  color : String
  recommendation : String
  icon : String
deriving DecidableEq

/-- Classifier UVIndexInfo.from_uv_value
(src/examples/safety_features_implementation.py): clamps a negative value
to zero first, then applies the same five breakpoints; its stored value is
the clamped one and its Extreme recommendation text differs from
get_uv_info. -/
def UVIndexInfo.from_uv_value (uv_value : ℚ) : UVIndexInfo :=
  let uv := if uv_value < 0 then 0 else uv_value
  if uv ≤ 2 then
    ⟨uv, "low", "#289500",
     "Minimal protection needed. Wear sunglasses on bright days.", "🟢"⟩
  else if uv ≤ 5 then
    ⟨uv, "moderate", "#F7E400",
     "Protection required. Wear sunscreen SPF 30+, hat, and sunglasses.", "🟡"⟩
  else if uv ≤ 7 then
    ⟨uv, "high", "#F85900",
     "Protection essential. Seek shade during midday. Sunscreen, hat, and sunglasses required.", "🟠"⟩
  else if uv ≤ 10 then
    ⟨uv, "very_high", "#D8001D",
     "Extra protection required. Avoid sun 10am-4pm. Sunscreen SPF 50+, protective clothing required.", "🔴"⟩
  else
    ⟨uv, "extreme", "#6B49C8",
     "Avoid sun exposure. Stay indoors 10am-4pm. Full sun protection mandatory if outside.", "🟣"⟩

/-- Ordinal rank of the five UV level names of get_uv_info, for stating
monotonicity of the classification. -/
def uvLevelRank (level : String) : Nat :=
  if level = "Low" then 0
  else if level = "Moderate" then 1
  else if level = "High" then 2
  else if level = "Very High" then 3
  else 4

/-- AQI classification record returned by get_aqi_info: the raw index
value plus level, color, guidance, icon and the two pass-through
particulate readings. -/
structure AqiInfo where
  value : JVal
  level : String
  color : String
  guidance : String
  icon : String
  pm2_5 : JVal
  pm10 : JVal

/-- Enrichment helper get_aqi_info (src/services/safety_features.py):
reads the air_quality block (default empty) and its us-epa-index (default
0); an index equal to 0 yields None; indices 1..5 select the fixed table
rows; every other value falls through to the final else branch, the
Hazardous row.  PM2.5 and PM10 are read with default 0 and passed through
unchanged. -/
def get_aqi_info (current_data : JVal) : Option AqiInfo :=
  let aq := current_data.getD "air_quality" (.obj [])
  let v := aq.getD "us-epa-index" (.num 0)
  if v.pyEqNum 0 then none
  else
    let pm25 := aq.getD "pm2_5" (.num 0)
    let pm10 := aq.getD "pm10" (.num 0)
    if v.pyEqNum 1 then
      some ⟨v, "Good", "#00E400",
        "Air quality is satisfactory. Air pollution poses little or no risk.",
        "🟢", pm25, pm10⟩
    else if v.pyEqNum 2 then
      some ⟨v, "Moderate", "#FFFF00",
        "Acceptable air quality. Unusually sensitive people should consider limiting prolonged outdoor exertion.",
        "🟡", pm25, pm10⟩
    else if v.pyEqNum 3 then
      some ⟨v, "Unhealthy for Sensitive Groups", "#FF7E00",
        "People with respiratory or heart conditions, elderly, and children should limit prolonged outdoor exertion.",
        "🟠", pm25, pm10⟩
    else if v.pyEqNum 4 then
      some ⟨v, "Unhealthy", "#FF0000",
        "Everyone may begin to experience health effects. Sensitive groups should avoid prolonged outdoor exertion.",
        "🔴", pm25, pm10⟩
    else if v.pyEqNum 5 then
      some ⟨v, "Very Unhealthy", "#8F3F97",
        "Health alert. Everyone should avoid prolonged outdoor exertion. Sensitive groups should avoid all outdoor activity.",
        "🟣", pm25, pm10⟩
    else
      some ⟨v, "Hazardous", "#7E0023",
        "Health warning of emergency conditions. Everyone should avoid all outdoor exertion.",
        "🟤", pm25, pm10⟩

/-- Level-name column of the fixed six-row EPA table of get_aqi_info,
indexed by the EPA category 1..6. -/
def aqiLevelName (i : Nat) : String :=
  if i = 1 then "Good"
  else if i = 2 then "Moderate"
  else if i = 3 then "Unhealthy for Sensitive Groups"
  else if i = 4 then "Unhealthy"
  else if i = 5 then "Very Unhealthy"
  else "Hazardous"

/-- Color column of the fixed six-row EPA table of get_aqi_info, indexed
by the EPA category 1..6. -/
def aqiColor (i : Nat) : String :=
  if i = 1 then "#00E400"
  else if i = 2 then "#FFFF00"
  else if i = 3 then "#FF7E00"
  else if i = 4 then "#FF0000"
  else if i = 5 then "#8F3F97"
  else "#7E0023"

/-- Severe weather alert of the dataclass WeatherAlert
(src/examples/safety_features_implementation.py).  The effective and
expires timestamps are modelled as absolute instants (seconds), which is
what comparison of timezone-aware datetimes compares. -/
structure WeatherAlert where
  headline : String
  event : String
  severity : String
  urgency : String
  areas : String
  description : String
  instruction : String
  effective : Int
  expires : Int
  color : String
  icon : String

/-- Activity test WeatherAlert.is_active: the current instant lies between
the effective and expires instants inclusively. -/
def WeatherAlert.is_active (a : WeatherAlert) (now : Int) : Bool :=
  a.effective ≤ now ∧ now ≤ a.expires

/-- Parsing of a 12-hour clock string with datetime.strptime(s, the
I:M p format): one or two hour digits valued 1..12, a colon, one or two
minute digits valued 0..59, at least one whitespace character, then AM or
PM case-insensitively, and nothing further.  The value returned is the
minute of the 24-hour day, applying the 12 AM to hour 0 and 12 PM to hour
12 conventions. -/
def parseTime12 (s : String) : Option Nat :=
  let cs := s.toList
  let hds := cs.takeWhile Char.isDigit
  match cs.dropWhile Char.isDigit with
  | ':' :: rest2 =>
    let mds := rest2.takeWhile Char.isDigit
    let rest3 := rest2.dropWhile Char.isDigit
    let mer := rest3.dropWhile Char.isWhitespace
    let h := digitsVal hds
    let m := digitsVal mds
    if allDigits hds ∧ hds.length ≤ 2 ∧ 1 ≤ h ∧ h ≤ 12 ∧
        allDigits mds ∧ mds.length ≤ 2 ∧ m ≤ 59 ∧
        (rest3.takeWhile Char.isWhitespace ≠ []) then
      match mer.map Char.toLower with
      | ['a', 'm'] => some ((if h = 12 then 0 else h) * 60 + m)
      | ['p', 'm'] => some ((if h = 12 then 12 else h + 12) * 60 + m)
      | _ => none
    else none
  | _ => none

/-- Astronomy helper calculate_daylight_duration
(src/services/astronomy_features.py): empty sunrise or sunset strings
yield None; both strings are parsed as 12-hour clock times (None if either
fails); the difference sunset minus sunrise gains 24 hours when negative;
the result is rendered as hours and minutes.  The source computes in
seconds and divides by 3600 and 60, which on whole minutes equals the
computation here in minutes. -/
def calculate_daylight_duration (sunrise sunset : String) : Option String :=
  if sunrise = "" ∨ sunset = "" then none
  else
    match parseTime12 sunrise, parseTime12 sunset with
    | some t1, some t2 =>
      let diff : Int := (t2 : Int) - (t1 : Int)
      let dur : Int := if diff < 0 then diff + 1440 else diff
      some (toString (dur / 60) ++ "h " ++ toString (dur % 60) ++ "m")
    | _, _ => none

/-! Specification-side comparison definitions and small helper predicates
used by the theorems below. -/

/-- Comma join of the non-empty parts of name, region and country.  This
definition follows the wording of the specification for the SearchResult
display invariant, for comparison against the implemented display
string. -/
def displayJoinNonEmpty (name region country : String) : String :=
  String.intercalate ", " (([name, region, country]).filter (fun p => p ≠ ""))

/-- Test that a request outcome, when it carries a payload, carries a
truthy one; used to express that upstream 2xx responses are non-empty. -/
def okTruthy (o : ReqOutcome) : Bool :=
  match o with
  | .ok d => d.truthy
  | _ => true

/-- Test that a request outcome, when it carries a payload, carries a JSON
array; used to express that the search endpoint returns a list. -/
def okArr (o : ReqOutcome) : Bool :=
  match o with
  | .ok (.arr _) => true
  | .ok _ => false
  | _ => true

/-- Guidance column of the fixed six-row EPA table of get_aqi_info,
indexed by the EPA category 1..6. -/
def aqiGuidance (i : Nat) : String :=
  if i = 1 then
    "Air quality is satisfactory. Air pollution poses little or no risk."
  else if i = 2 then
    "Acceptable air quality. Unusually sensitive people should consider limiting prolonged outdoor exertion."
  else if i = 3 then
    "People with respiratory or heart conditions, elderly, and children should limit prolonged outdoor exertion."
  else if i = 4 then
    "Everyone may begin to experience health effects. Sensitive groups should avoid prolonged outdoor exertion."
  else if i = 5 then
    "Health alert. Everyone should avoid prolonged outdoor exertion. Sensitive groups should avoid all outdoor activity."
  else
    "Health warning of emergency conditions. Everyone should avoid all outdoor exertion."

/-- Icon column of the fixed six-row EPA table of get_aqi_info, indexed by
the EPA category 1..6. -/
def aqiIcon (i : Nat) : String :=
  if i = 1 then "🟢"
  else if i = 2 then "🟡"
  else if i = 3 then "🟠"
  else if i = 4 then "🔴"
  else if i = 5 then "🟣"
  else "🟤"

/-- Color fixed by each UV band level name of get_uv_info. -/
def uvColorOfLevel (level : String) : String :=
  if level = "Low" then "#289500"
  else if level = "Moderate" then "#F7E400"
  else if level = "High" then "#F85900"
  else if level = "Very High" then "#D8001D"
  else "#6B49C8"

/-- Icon fixed by each UV band level name of get_uv_info. -/
def uvIconOfLevel (level : String) : String :=
  if level = "Low" then "🟢"
  else if level = "Moderate" then "🟡"
  else if level = "High" then "🟠"
  else if level = "Very High" then "🔴"
  else "🟣"

/-- Recommendation fixed by each UV band level name of get_uv_info. -/
def uvRecOfLevel (level : String) : String :=
  if level = "Low" then
    "Minimal protection needed. Wear sunglasses on bright days."
  else if level = "Moderate" then
    "Protection required. Wear sunscreen SPF 30+, hat, and sunglasses."
  else if level = "High" then
    "Protection essential. Seek shade during midday. Sunscreen, hat, and sunglasses required."
  else if level = "Very High" then
    "Extra protection required. Avoid sun 10am-4pm. Sunscreen SPF 50+, protective clothing required."
  else
    "Take all precautions. Avoid sun exposure. Unprotected skin can burn in minutes."

/-! Concrete request oracles used by the witnesses and counterexamples
below. -/

/-- Oracle for the IP-geolocation scenario: the geolocation call succeeds
with a payload naming a city, and every other call (in particular the
follow-up current-conditions call) raises a service error. -/
def ipFetchRaise : Request → ReqOutcome := fun r =>
  if r.endpoint = "ip.json" then .ok (.obj [("city", .str "Denver")])
  else .err

/-- Oracle for the IP-geolocation degrade scenario: the geolocation call
succeeds and the follow-up current-conditions call returns HTTP 400. -/
def ipFetch400 : Request → ReqOutcome := fun r =>
  if r.endpoint = "ip.json" then .ok (.obj [("city", .str "Denver")])
  else .notFound

/-- Oracle for the search scenario: every call returns a one-item search
list. -/
def searchFetchOne : Request → ReqOutcome := fun _ =>
  .ok (.arr [.obj [("name", .str "London"),
                   ("region", .str "City of London, Greater London"),
                   ("country", .str "United Kingdom")]])

/-- Date parameter carried by a two-parameter request, used by the
scenario oracle below to tell the history days apart. -/
def reqDt (r : Request) : String :=
  match r.params with
  | [_, (_, .str dt)] => dt
  | _ => ""

/-- Oracle for the weather-bundle scenario with the wall clock at
2026-10-12: the forecast call succeeds, the history calls for 2026-10-10
and 2026-10-07 (offsets 2 and 5) raise a transport error, and the
remaining five history calls succeed. -/
def denverFetch : Request → ReqOutcome := fun r =>
  if r.endpoint = "forecast.json" then
    .ok (.obj [("location", .obj [("name", .str "Denver")]),
               ("current", .obj [("temp_c", .num 21)])])
  else if reqDt r = "2026-10-10" ∨ reqDt r = "2026-10-07" then .err
  else .ok (.obj [("forecast", .str (reqDt r))])

/-- Oracle that fails every request with a service error. -/
def alwaysErr : Request → ReqOutcome := fun _ => .err

/-! Claim theorems. -/

/-- C8: the activity test WeatherAlert.is_active holds exactly when the
current instant lies between the effective and expires instants
inclusively; in particular an alert effective an hour ago and expiring in
an hour is active, one that expired an hour ago is not, and one becoming
effective only in an hour is not. -/
theorem alert_is_active_iff (a : WeatherAlert) (now : Int) :
    (a.is_active now = true ↔ a.effective ≤ now ∧ now ≤ a.expires) ∧
    (a.effective = now - 3600 → a.expires = now + 3600 →
      a.is_active now = true) ∧
    (a.expires = now - 3600 → a.is_active now = false) ∧
    (a.effective = now + 3600 → a.is_active now = false) := by
  unfold WeatherAlert.is_active
  refine ⟨by simp, ?_, ?_, ?_⟩
  · intro h1 h2
    simp only [decide_eq_true_eq]
    omega
  · intro h1
    simp only [decide_eq_false_iff_not]
    omega
  · intro h1
    simp only [decide_eq_false_iff_not]
    omega

/-- Witness for C8 at a concrete alert and instant. -/
theorem alert_is_active_iff_witness :
    WeatherAlert.is_active
      ⟨"h", "e", "severe", "immediate", "", "", "", -3600, 3600, "#FF4500", "!"⟩
      0 = true :=
  (alert_is_active_iff
    ⟨"h", "e", "severe", "immediate", "", "", "", -3600, 3600, "#FF4500", "!"⟩
    0).2.1 rfl rfl

/-- C10: any us-epa-index value that compares equal to none of 0 through 5
falls through to the final else branch of get_aqi_info, which yields a
present classification whose level is Hazardous (rather than an absent
result). -/
theorem aqi_catch_all_hazardous (fs : List (String × JVal)) (v : JVal)
    (hfind : fs.lookup "us-epa-index" = some v)
    (h0 : v.pyEqNum 0 = false) (h1 : v.pyEqNum 1 = false)
    (h2 : v.pyEqNum 2 = false) (h3 : v.pyEqNum 3 = false)
    (h4 : v.pyEqNum 4 = false) (h5 : v.pyEqNum 5 = false) :
    ∃ info, get_aqi_info (.obj [("air_quality", .obj fs)]) = some info ∧
      info.level = "Hazardous" := by
  have h : get_aqi_info (.obj [("air_quality", .obj fs)]) =
      some ⟨v, "Hazardous", "#7E0023",
        "Health warning of emergency conditions. Everyone should avoid all outdoor exertion.",
        "🟤", (JVal.obj fs).getD "pm2_5" (.num 0),
        (JVal.obj fs).getD "pm10" (.num 0)⟩ := by
    simp [get_aqi_info, JVal.getD, List.lookup, hfind, h0, h1, h2, h3, h4, h5]
  exact ⟨_, h, rfl⟩

/-- Witness for C10 at the EPA index 7, outside both the 0 guard and the
1..5 table rows. -/
theorem aqi_catch_all_hazardous_witness :
    ∃ info,
      get_aqi_info (.obj [("air_quality", .obj [("us-epa-index", .num 7)])]) =
        some info ∧ info.level = "Hazardous" :=
  aqi_catch_all_hazardous [("us-epa-index", .num 7)] (.num 7)
    rfl rfl rfl rfl rfl rfl rfl

/-- C7: get_aqi_info returns an absent result when the EPA index is 0 or
missing (also when the whole air_quality block is missing); for each index
1 through 6 it returns the fixed table row with that level name, color,
guidance and icon; and the PM2.5 and PM10 readings pass through unchanged
when present. -/
theorem aqi_table (fs : List (String × JVal)) :
    (fs.lookup "us-epa-index" = none →
      get_aqi_info (.obj [("air_quality", .obj fs)]) = none) ∧
    (fs.lookup "us-epa-index" = some (.num 0) →
      get_aqi_info (.obj [("air_quality", .obj fs)]) = none) ∧
    get_aqi_info (.obj []) = none ∧
    (∀ i : ℕ, 1 ≤ i → i ≤ 6 → fs.lookup "us-epa-index" = some (.num i) →
      get_aqi_info (.obj [("air_quality", .obj fs)]) =
        some ⟨.num i, aqiLevelName i, aqiColor i, aqiGuidance i, aqiIcon i,
          (JVal.obj fs).getD "pm2_5" (.num 0),
          (JVal.obj fs).getD "pm10" (.num 0)⟩) ∧
    (∀ i : ℕ, 1 ≤ i → i ≤ 6 → fs.lookup "us-epa-index" = some (.num i) →
      ∀ p25 p10, fs.lookup "pm2_5" = some p25 → fs.lookup "pm10" = some p10 →
        ∃ info, get_aqi_info (.obj [("air_quality", .obj fs)]) = some info ∧
          info.pm2_5 = p25 ∧ info.pm10 = p10) := by
  have htab : ∀ i : ℕ, 1 ≤ i → i ≤ 6 →
      fs.lookup "us-epa-index" = some (.num i) →
      get_aqi_info (.obj [("air_quality", .obj fs)]) =
        some ⟨.num i, aqiLevelName i, aqiColor i, aqiGuidance i, aqiIcon i,
          (JVal.obj fs).getD "pm2_5" (.num 0),
          (JVal.obj fs).getD "pm10" (.num 0)⟩ := by
    intro i h1 h6 hfind
    interval_cases i <;>
      simp [get_aqi_info, JVal.getD, JVal.pyEqNum, hfind,
        aqiLevelName, aqiColor, aqiGuidance, aqiIcon]
  refine ⟨?_, ?_, rfl, htab, ?_⟩
  · intro hnone
    simp [get_aqi_info, JVal.getD, JVal.pyEqNum, hnone]
  · intro h0
    simp [get_aqi_info, JVal.getD, JVal.pyEqNum, h0]
  · intro i h1 h6 hfind p25 p10 hp25 hp10
    refine ⟨_, htab i h1 h6 hfind, ?_, ?_⟩ <;>
      simp [JVal.getD, hp25, hp10]

/-- Witness for C7 at EPA index 3 with both particulate readings
present. -/
theorem aqi_table_witness :
    ∃ info,
      get_aqi_info (.obj [("air_quality",
        .obj [("us-epa-index", .num 3), ("pm2_5", .num (49/10)),
              ("pm10", .num 12)])]) = some info ∧
      info.pm2_5 = .num (49/10) ∧ info.pm10 = .num 12 :=
  (aqi_table [("us-epa-index", .num 3), ("pm2_5", .num (49/10)),
              ("pm10", .num 12)]).2.2.2.2 3
    (by norm_num) (by norm_num) rfl (.num (49/10)) (.num 12) rfl rfl

/-- C4 counterexample: on a search item whose region is empty, the
constructed display string keeps the empty slot between its two commas,
so it differs from the comma join of the non-empty parts that the claim
requires. -/
theorem search_display_counterexample :
    (mkSearchResult (.obj [("name", .str "London"), ("region", .str ""),
        ("country", .str "United Kingdom")])).display =
      "London, , United Kingdom" ∧
    displayJoinNonEmpty "London" "" "United Kingdom" =
      "London, United Kingdom" ∧
    (mkSearchResult (.obj [("name", .str "London"), ("region", .str ""),
        ("country", .str "United Kingdom")])).display ≠
      displayJoinNonEmpty "London" "" "United Kingdom" ∧
    (mkSearchResult (.obj [("name", .str "London"), ("region", .str ""),
        ("country", .str "United Kingdom")])).value = "London" := by
  refine ⟨rfl, by decide, by decide, rfl⟩

/-- C4 amended: every constructed SearchResult joins all three of name,
region and country with commas, empty parts included, and its value equals
its name; the join coincides with the comma join of the non-empty parts
whenever all three parts are non-empty; and on a cache miss with a list
payload and a query of admissible length, the results of search_locations
are exactly these records over the sliced upstream items. -/
theorem search_display_amended :
    (∀ item : JVal,
      (mkSearchResult item).display =
        (mkSearchResult item).name ++ ", " ++ (mkSearchResult item).region ++
          ", " ++ (mkSearchResult item).country ∧
      (mkSearchResult item).value = (mkSearchResult item).name) ∧
    (∀ name region country : String,
      name ≠ "" → region ≠ "" → country ≠ "" →
      name ++ ", " ++ region ++ ", " ++ country =
        displayJoinNonEmpty name region country) ∧
    (∀ (fetch : Request → ReqOutcome)
        (cache : List (String × List SearchResult)) (q : String) (lim : Int)
        (xs : List JVal),
      ¬(q = "" ∨ q.length < 2) →
      cache.lookup (cacheKey ["search", q, toString lim]) = none →
      fetch (searchReq q) = .ok (.arr xs) →
      (search_locations fetch cache q lim).1 =
        (pySlice xs lim).map mkSearchResult) := by
  refine ⟨?_, ?_, ?_⟩
  · intro item
    exact ⟨rfl, rfl⟩
  · intro name region country h1 h2 h3
    simp [displayJoinNonEmpty, h1, h2, h3, String.intercalate,
      String.intercalate.go]
  · intro fetch cache q lim xs hq hmiss hfetch
    rcases xs with _ | ⟨x, xs⟩ <;>
      simp [search_locations, hq, hmiss, hfetch, JVal.truthy, pySlice]

/-- Reduction of get_uv_info on a payload carrying a numeric uv value: the
raw value is echoed and the remaining fields come from the band
selection. -/
theorem get_uv_info_at (v : ℚ) :
    get_uv_info (.obj [("uv", .num v)]) =
      ⟨v, (uvBand v).1, (uvBand v).2.1, (uvBand v).2.2.1, (uvBand v).2.2.2⟩ :=
  rfl

/-- Rank of the selected UV band as a four-way threshold test. -/
theorem uvLevelRank_uvBand (u : ℚ) :
    uvLevelRank (uvBand u).1 =
      (if u ≤ 2 then 0 else if u ≤ 5 then 1 else if u ≤ 7 then 2
       else if u ≤ 10 then 3 else 4) := by
  unfold uvBand
  split_ifs <;> rfl

/-- C6: get_uv_info classifies every value through the five fixed
breakpoints at 2, 5, 7 and 10, echoing the raw value; the color, icon and
recommendation are fixed functions of the band level; the band level is
monotonic in the value; the band fields of a negative value coincide with
those of zero (a negative value lands in the lowest band); and the variant
classifier UVIndexInfo.from_uv_value clamps a negative value to zero
outright, so its whole result at a negative value equals its result at
zero. -/
theorem uv_classification (v w : ℚ) :
    ((get_uv_info (.obj [("uv", .num v)])).value = v) ∧
    ((get_uv_info (.obj [("uv", .num v)])).level =
      (if v ≤ 2 then "Low" else if v ≤ 5 then "Moderate"
       else if v ≤ 7 then "High" else if v ≤ 10 then "Very High"
       else "Extreme")) ∧
    ((get_uv_info (.obj [("uv", .num v)])).color =
      uvColorOfLevel (get_uv_info (.obj [("uv", .num v)])).level) ∧
    ((get_uv_info (.obj [("uv", .num v)])).icon =
      uvIconOfLevel (get_uv_info (.obj [("uv", .num v)])).level) ∧
    ((get_uv_info (.obj [("uv", .num v)])).recommendation =
      uvRecOfLevel (get_uv_info (.obj [("uv", .num v)])).level) ∧
    (v ≤ w →
      uvLevelRank (get_uv_info (.obj [("uv", .num v)])).level ≤
        uvLevelRank (get_uv_info (.obj [("uv", .num w)])).level) ∧
    (v < 0 →
      (get_uv_info (.obj [("uv", .num v)])).level =
        (get_uv_info (.obj [("uv", .num 0)])).level ∧
      (get_uv_info (.obj [("uv", .num v)])).color =
        (get_uv_info (.obj [("uv", .num 0)])).color ∧
      (get_uv_info (.obj [("uv", .num v)])).recommendation =
        (get_uv_info (.obj [("uv", .num 0)])).recommendation ∧
      (get_uv_info (.obj [("uv", .num v)])).icon =
        (get_uv_info (.obj [("uv", .num 0)])).icon) ∧
    (v < 0 → UVIndexInfo.from_uv_value v = UVIndexInfo.from_uv_value 0) := by
  refine ⟨rfl, ?_, ?_, ?_, ?_, ?_, ?_, ?_⟩
  · rw [get_uv_info_at]
    unfold uvBand
    split_ifs <;> rfl
  · rw [get_uv_info_at]
    unfold uvBand
    split_ifs <;> rfl
  · rw [get_uv_info_at]
    unfold uvBand
    split_ifs <;> rfl
  · rw [get_uv_info_at]
    unfold uvBand
    split_ifs <;> rfl
  · intro hvw
    rw [get_uv_info_at, get_uv_info_at]
    show uvLevelRank (uvBand v).1 ≤ uvLevelRank (uvBand w).1
    rw [uvLevelRank_uvBand, uvLevelRank_uvBand]
    split_ifs <;> first | omega | linarith
  · intro h
    have hb : uvBand v = uvBand 0 := by
      unfold uvBand
      rw [if_pos (le_trans h.le (by norm_num)), if_pos (by norm_num : (0:ℚ) ≤ 2)]
    rw [get_uv_info_at, get_uv_info_at, hb]
    exact ⟨rfl, rfl, rfl, rfl⟩
  · intro h
    simp [UVIndexInfo.from_uv_value, h]

/-- Witness for C6 at the negative value -3 and the comparison value
4. -/
theorem uv_classification_witness :
    uvLevelRank (get_uv_info (.obj [("uv", .num (-3))])).level ≤
      uvLevelRank (get_uv_info (.obj [("uv", .num 4)])).level ∧
    UVIndexInfo.from_uv_value (-3) = UVIndexInfo.from_uv_value 0 :=
  ⟨(uv_classification (-3) 4).2.2.2.2.2.1 (by norm_num),
   (uv_classification (-3) 4).2.2.2.2.2.2.2 (by norm_num)⟩

/-- C9: daylight duration comes from parsing both 12-hour clock strings
and subtracting, adding 24 hours when the difference is negative; the two
example pairs evaluate as the claim states; an empty or unparseable time
string on either side yields None. -/
theorem daylight_duration_spec :
    calculate_daylight_duration "06:30 AM" "05:45 PM" = some "11h 15m" ∧
    calculate_daylight_duration "11:00 PM" "01:00 AM" = some "2h 0m" ∧
    (∀ s : String, calculate_daylight_duration "" s = none) ∧
    (∀ s : String, calculate_daylight_duration s "" = none) ∧
    (∀ s t : String, parseTime12 s = none →
      calculate_daylight_duration s t = none) ∧
    (∀ s t : String, parseTime12 t = none →
      calculate_daylight_duration s t = none) ∧
    calculate_daylight_duration "6:30" "05:45 PM" = none ∧
    (∀ (s1 s2 : String) (t1 t2 : Nat),
      parseTime12 s1 = some t1 → parseTime12 s2 = some t2 →
      calculate_daylight_duration s1 s2 =
        some (toString ((if ((t2 : Int) - (t1 : Int)) < 0
                         then (t2 : Int) + 1440 - (t1 : Int)
                         else (t2 : Int) - (t1 : Int)) / 60) ++ "h " ++
              toString ((if ((t2 : Int) - (t1 : Int)) < 0
                         then (t2 : Int) + 1440 - (t1 : Int)
                         else (t2 : Int) - (t1 : Int)) % 60) ++ "m")) := by
  refine ⟨rfl, rfl, ?_, ?_, ?_, ?_, rfl, ?_⟩
  · intro s
    simp [calculate_daylight_duration]
  · intro s
    simp [calculate_daylight_duration]
  · intro s t h
    by_cases hs : s = ""
    · simp [calculate_daylight_duration, hs]
    · by_cases ht : t = ""
      · simp [calculate_daylight_duration, hs, ht]
      · simp [calculate_daylight_duration, hs, ht, h]
  · intro s t h
    by_cases hs : s = ""
    · simp [calculate_daylight_duration, hs]
    · by_cases ht : t = ""
      · simp [calculate_daylight_duration, hs, ht]
      · simp [calculate_daylight_duration, hs, ht, h]
  · intro s1 s2 t1 t2 h1 h2
    have hs1 : ¬s1 = "" := by
      intro e
      rw [e, show parseTime12 "" = none from rfl] at h1
      cases h1
    have hs2 : ¬s2 = "" := by
      intro e
      rw [e, show parseTime12 "" = none from rfl] at h2
      cases h2
    have key : (if t2 < t1 then (t2 : Int) - (t1 : Int) + 1440
                else (t2 : Int) - (t1 : Int)) =
               (if t2 < t1 then (t2 : Int) + 1440 - (t1 : Int)
                else (t2 : Int) - (t1 : Int)) := by
      split_ifs <;> omega
    simp [calculate_daylight_duration, hs1, hs2, h1, h2]
    rw [key]

/-- Witness for C9 at the wrap-around pair of the claim. -/
theorem daylight_duration_spec_witness :
    parseTime12 "11:00 PM" = some 1380 ∧ parseTime12 "01:00 AM" = some 60 ∧
    calculate_daylight_duration "11:00 PM" "01:00 AM" = some "2h 0m" := by
  refine ⟨rfl, rfl, ?_⟩
  have h := daylight_duration_spec.2.2.2.2.2.2.2 "11:00 PM" "01:00 AM"
    1380 60 rfl rfl
  simpa using h

/-- C5 counterexample: the geolocation call succeeds with a truthy payload,
yet a service error raised by the follow-up current-conditions call makes
the whole operation return None instead of degrading to a None weather
field. -/
theorem ip_lookup_counterexample :
    ipFetchRaise (ipReq (ipQuery (some "1.2.3.4"))) =
      .ok (.obj [("city", .str "Denver")]) ∧
    (JVal.obj [("city", .str "Denver")]).truthy = true ∧
    ipFetchRaise (ipWeatherReq "Denver") = .err ∧
    (get_current_location_by_ip ipFetchRaise (some "1.2.3.4")).1 = none :=
  ⟨rfl, rfl, rfl, rfl⟩

/-- C5 amended: get_current_location_by_ip returns None when the
IP-geolocation lookup fails (raises, returns 400, or returns a falsy
payload) and also when the follow-up current-conditions call raises a
service error; a follow-up call answered with 400 degrades to a None
weather field in a still-present result; a successful follow-up call is
embedded as the weather field; and the follow-up always queries the city
of the geolocation payload, with the fixed fallback London when it
carries none. -/
theorem ip_lookup_behavior (fetch : Request → ReqOutcome) (ip : Option String) :
    (fetch (ipReq (ipQuery ip)) = .err →
      (get_current_location_by_ip fetch ip).1 = none) ∧
    (fetch (ipReq (ipQuery ip)) = .notFound →
      (get_current_location_by_ip fetch ip).1 = none) ∧
    (∀ d, fetch (ipReq (ipQuery ip)) = .ok d → d.truthy = false →
      (get_current_location_by_ip fetch ip).1 = none) ∧
    (∀ d, fetch (ipReq (ipQuery ip)) = .ok d → d.truthy = true →
      (get_current_location_by_ip fetch ip).2 =
        [ipReq (ipQuery ip), ipWeatherReq (d.getStrD "city" "London")]) ∧
    (∀ d, fetch (ipReq (ipQuery ip)) = .ok d → d.truthy = true →
      fetch (ipWeatherReq (d.getStrD "city" "London")) = .err →
      (get_current_location_by_ip fetch ip).1 = none) ∧
    (∀ d, fetch (ipReq (ipQuery ip)) = .ok d → d.truthy = true →
      fetch (ipWeatherReq (d.getStrD "city" "London")) = .notFound →
      (get_current_location_by_ip fetch ip).1 =
        some (.obj [("user_info", d), ("current_weather", .null)])) ∧
    (∀ d w, fetch (ipReq (ipQuery ip)) = .ok d → d.truthy = true →
      fetch (ipWeatherReq (d.getStrD "city" "London")) = .ok w →
      (get_current_location_by_ip fetch ip).1 =
        some (.obj [("user_info", d), ("current_weather", w)])) := by
  refine ⟨?_, ?_, ?_, ?_, ?_, ?_, ?_⟩
  · intro h
    simp [get_current_location_by_ip, h]
  · intro h
    simp [get_current_location_by_ip, h]
  · intro d h ht
    simp [get_current_location_by_ip, h, ht]
  · intro d h ht
    simp [get_current_location_by_ip, h, ht]
    cases hw : fetch (ipWeatherReq (d.getStrD "city" "London")) <;> simp [hw]
  · intro d h ht hw
    simp [get_current_location_by_ip, h, ht, hw]
  · intro d h ht hw
    simp [get_current_location_by_ip, h, ht, hw]
  · intro d w h ht hw
    simp [get_current_location_by_ip, h, ht, hw]

/-- Witness for C5 at an oracle whose follow-up call returns 400: the
result is present with a None weather field. -/
theorem ip_lookup_behavior_witness :
    (get_current_location_by_ip ipFetch400 (some "1.2.3.4")).1 =
      some (.obj [("user_info", .obj [("city", .str "Denver")]),
                  ("current_weather", .null)]) :=
  (ip_lookup_behavior ipFetch400 (some "1.2.3.4")).2.2.2.2.2.1
    (.obj [("city", .str "Denver")]) rfl rfl rfl

/-- C3 counterexample: with a limit of 0 and a non-empty upstream item
list, search_locations returns an empty list and nevertheless writes it to
the search cache, so a second identical call is a cache hit and issues no
upstream request. -/
theorem search_cache_counterexample :
    (search_locations searchFetchOne [] "London" 0).1 = [] ∧
    (search_locations searchFetchOne [] "London" 0).2.1 =
      [(cacheKey ["search", "London", "0"], [])] ∧
    (search_locations searchFetchOne
        (search_locations searchFetchOne [] "London" 0).2.1
        "London" 0).2.2 = [] := by
  refine ⟨rfl, rfl, ?_⟩
  rfl

/-- C3 amended: validate_location never caches a negative result and only
writes successful validations; search_locations returns empty with no
request and no write for a short query, and leaves its cache unchanged
whenever it returns an empty list, provided the limit is at least 1 (with
a non-positive limit, a non-empty upstream list sliced to an empty result
is cached, as the counterexample shows). -/
theorem negative_results_not_cached
    (fetch : Request → ReqOutcome)
    (vcache : List (String × (Bool × Option JVal)))
    (scache : List (String × List SearchResult))
    (location q : String) (lim : Int) :
    (vcache.lookup (cacheKey ["validate", location]) = none →
      ((validate_location fetch vcache location).1 = (false, none) →
        (validate_location fetch vcache location).2.1 = vcache) ∧
      ((validate_location fetch vcache location).2.1 ≠ vcache →
        (validate_location fetch vcache location).1.1 = true)) ∧
    ((q = "" ∨ q.length < 2) →
      search_locations fetch scache q lim = ([], scache, [])) ∧
    (scache.lookup (cacheKey ["search", q, toString lim]) = none →
      okArr (fetch (searchReq q)) = true → 1 ≤ lim →
      (search_locations fetch scache q lim).1 = [] →
      (search_locations fetch scache q lim).2.1 = scache) := by
  refine ⟨?_, ?_, ?_⟩
  · intro hmiss
    cases hf : fetch (validateReq location) with
    | ok d =>
      cases ht : d.truthy with
      | true =>
        constructor
        · intro hres
          simp [validate_location, hmiss, hf, ht] at hres
        · intro _
          simp [validate_location, hmiss, hf, ht]
      | false =>
        constructor
        · intro _
          simp [validate_location, hmiss, hf, ht]
        · intro hne
          exact absurd (by simp [validate_location, hmiss, hf, ht]) hne
    | notFound =>
      constructor
      · intro _
        simp [validate_location, hmiss, hf]
      · intro hne
        exact absurd (by simp [validate_location, hmiss, hf]) hne
    | err =>
      constructor
      · intro _
        simp [validate_location, hmiss, hf]
      · intro hne
        exact absurd (by simp [validate_location, hmiss, hf]) hne
  · intro hq
    simp [search_locations, hq]
  · intro hmiss harr hlim hres
    by_cases hq : q = "" ∨ q.length < 2
    · simp [search_locations, hq]
    · cases hf : fetch (searchReq q) with
      | ok d =>
        cases d with
        | arr xs =>
          cases xs with
          | nil => simp [search_locations, hq, hmiss, hf, JVal.truthy]
          | cons x xs =>
            obtain ⟨k, hk⟩ : ∃ k, lim.toNat = k + 1 := ⟨lim.toNat - 1, by omega⟩
            have hne : pySlice (x :: xs) lim ≠ [] := by
              simp [pySlice, if_pos (by omega : (0:Int) ≤ lim), hk]
            simp [search_locations, hq, hmiss, hf, JVal.truthy] at hres
            exact absurd hres hne
        | null => simp [okArr, hf] at harr
        | num _ => simp [okArr, hf] at harr
        | str _ => simp [okArr, hf] at harr
        | obj _ => simp [okArr, hf] at harr
      | notFound => simp [search_locations, hq, hmiss, hf]
      | err => simp [search_locations, hq, hmiss, hf]

/-- Witness for C3 at a failing oracle: neither the failed validation nor
the failed search writes its cache. -/
theorem negative_results_not_cached_witness :
    (validate_location alwaysErr [] "Paris").2.1 = [] ∧
    (search_locations alwaysErr [] "London" 10).2.1 = [] :=
  ⟨((negative_results_not_cached alwaysErr [] [] "Paris" "London" 10).1
      rfl).1 rfl,
   (negative_results_not_cached alwaysErr [] [] "Paris" "London" 10).2.2
      rfl rfl (by norm_num) rfl⟩

/-- C1 counterexample: with the wall clock at 2026-10-12 and the requested
date equal to that same day, get_hourly_forecast issues its single request
to the history endpoint, not the forecast endpoint the claim requires for
a today-or-future date. -/
theorem hourly_endpoint_counterexample :
    parseDate "2026-10-12" = some ⟨2026, 10, 12⟩ ∧
    (get_hourly_forecast alwaysErr ⟨2026, 10, 12⟩ [] "Denver"
        "2026-10-12").2.2 = [histReq "Denver" "2026-10-12"] ∧
    (histReq "Denver" "2026-10-12").endpoint = "history.json" ∧
    (hourlyForecastReq "Denver" "2026-10-12").endpoint = "forecast.json" :=
  ⟨rfl, rfl, rfl, rfl⟩

/-- C1 amended: on a cache miss, get_hourly_forecast returns None without
any request when the date string is unparseable; otherwise it issues its
single upstream request to the forecast endpoint when the parsed date is
strictly after today and to the history endpoint when it is today or past;
a failed or falsy response yields None, and a truthy response yields the
assembled record carrying the first forecast day's hour array, day summary
and astronomy block. -/
theorem hourly_forecast_behavior
    (fetch : Request → ReqOutcome) (today : Date)
    (cache : List (String × JVal)) (loc dateStr : String)
    (hmiss : cache.lookup (cacheKey ["hourly", loc, dateStr]) = none) :
    (parseDate dateStr = none →
      get_hourly_forecast fetch today cache loc dateStr = (none, cache, [])) ∧
    (∀ target, parseDate dateStr = some target →
      (get_hourly_forecast fetch today cache loc dateStr).2.2 =
        [if Date.lt today target then hourlyForecastReq loc dateStr
         else histReq loc dateStr]) ∧
    (∀ target, parseDate dateStr = some target →
      (fetch (if Date.lt today target then hourlyForecastReq loc dateStr
              else histReq loc dateStr) = .err ∨
       fetch (if Date.lt today target then hourlyForecastReq loc dateStr
              else histReq loc dateStr) = .notFound) →
      (get_hourly_forecast fetch today cache loc dateStr).1 = none) ∧
    (∀ target d, parseDate dateStr = some target →
      fetch (if Date.lt today target then hourlyForecastReq loc dateStr
             else histReq loc dateStr) = .ok d →
      d.truthy = false →
      (get_hourly_forecast fetch today cache loc dateStr).1 = none) ∧
    (∀ target d, parseDate dateStr = some target →
      fetch (if Date.lt today target then hourlyForecastReq loc dateStr
             else histReq loc dateStr) = .ok d →
      d.truthy = true →
      (get_hourly_forecast fetch today cache loc dateStr).1 =
        some (.obj
          [("location", d.getD "location" (.obj [])),
           ("date", .str dateStr),
           ("hourly",
            (firstForecastDay
              ((d.getD "forecast" (.obj [])).getD "forecastday"
                (.arr []))).getD "hour" (.arr [])),
           ("day_summary",
            (firstForecastDay
              ((d.getD "forecast" (.obj [])).getD "forecastday"
                (.arr []))).getD "day" (.obj [])),
           ("astronomy",
            (firstForecastDay
              ((d.getD "forecast" (.obj [])).getD "forecastday"
                (.arr []))).getD "astro" (.obj []))])) := by
  refine ⟨?_, ?_, ?_, ?_, ?_⟩
  · intro hp
    simp only [get_hourly_forecast, hmiss, hp]
  · intro target hp
    simp only [get_hourly_forecast, hmiss, hp]
    cases hf : fetch (if Date.lt today target then
        hourlyForecastReq loc dateStr else histReq loc dateStr) with
    | ok d =>
      simp only [hf]
      cases ht : d.truthy <;> simp [ht]
    | notFound => simp [hf]
    | err => simp [hf]
  · intro target hp hfe
    simp only [get_hourly_forecast, hmiss, hp]
    rcases hfe with hf | hf <;> simp [hf]
  · intro target d hp hf ht
    simp only [get_hourly_forecast, hmiss, hp]
    simp [hf, ht]
  · intro target d hp hf ht
    simp only [get_hourly_forecast, hmiss, hp]
    simp [hf, ht]

/-- Witness for C1 at a strictly future date: the single request goes to
the forecast endpoint. -/
theorem hourly_forecast_behavior_witness :
    (get_hourly_forecast alwaysErr ⟨2026, 10, 12⟩ [] "Denver"
        "2026-10-15").2.2 =
      [if Date.lt ⟨2026, 10, 12⟩ ⟨2026, 10, 15⟩ then
         hourlyForecastReq "Denver" "2026-10-15"
       else histReq "Denver" "2026-10-15"] :=
  (hourly_forecast_behavior alwaysErr ⟨2026, 10, 12⟩ [] "Denver"
    "2026-10-15" rfl).2.1 ⟨2026, 10, 15⟩ rfl

/-- Unrolling of the history loop: folding the append-if-truthy body over
any index list equals the accumulator followed by a filterMap keeping the
truthy payloads. -/
theorem get_history_foldl (fetch : Request → ReqOutcome) (loc : String)
    (today : Date) (l : List Nat) (acc : List JVal) :
    l.foldl
      (fun acc i =>
        match fetch (histReq loc (Date.fmt (today.subDays i))) with
        | .ok data => if data.truthy then acc ++ [data] else acc
        | .notFound => acc
        | .err => acc) acc =
    acc ++ l.filterMap
      (fun i =>
        match fetch (histReq loc (Date.fmt (today.subDays i))) with
        | .ok data => if data.truthy then some data else none
        | _ => none) := by
  induction l generalizing acc with
  | nil => simp
  | cons i l ih =>
    simp only [List.foldl_cons, List.filterMap_cons]
    cases hf : fetch (histReq loc (Date.fmt (today.subDays i))) with
    | ok data => cases ht : data.truthy <;> simp [ht, ih]
    | notFound => simp [ih]
    | err => simp [ih]

/-- Under truthy upstream payloads, the history loop collects exactly the
successful (payload-carrying) outcomes, in day order. -/
theorem get_history_eq (fetch : Request → ReqOutcome) (loc : String)
    (today : Date) (days : Nat) (hwf : ∀ r, okTruthy (fetch r) = true) :
    get_history fetch loc today days =
    (List.range' 1 days).filterMap
      (fun i =>
        match fetch (histReq loc (Date.fmt (today.subDays i))) with
        | .ok data => some data
        | _ => none) := by
  unfold get_history
  rw [get_history_foldl]
  simp only [List.nil_append]
  apply List.filterMap_congr
  intro i _
  cases hf : fetch (histReq loc (Date.fmt (today.subDays i))) with
  | ok data =>
    have ht := hwf (histReq loc (Date.fmt (today.subDays i)))
    rw [hf] at ht
    simp only [okTruthy] at ht
    simp [ht]
  | notFound => rfl
  | err => rfl

/-- C2: on a cache miss with truthy upstream payloads, get_weather_data
returns None exactly when the primary forecast call raises or returns
not-found; otherwise the bundle carries the forecast payload's sections
and a history list holding, in order, exactly the successful single-day
history results for today minus 1 through today minus 7, skipping the
failing days. -/
theorem weather_bundle_behavior
    (fetch : Request → ReqOutcome) (today : Date)
    (cache : List (String × JVal)) (loc : String)
    (hmiss : cache.lookup (cacheKey ["weather", loc]) = none)
    (hwf : ∀ r, okTruthy (fetch r) = true) :
    ((get_weather_data fetch today cache loc).1 = none ↔
      fetch (forecastReq loc) = .err ∨ fetch (forecastReq loc) = .notFound) ∧
    (∀ d, fetch (forecastReq loc) = .ok d →
      (get_weather_data fetch today cache loc).1 =
        some (.obj
          [("location", d.getD "location" (.obj [])),
           ("current", d.getD "current" (.obj [])),
           ("forecast", d.getD "forecast" (.obj [])),
           ("alerts", d.getD "alerts" (.obj [])),
           ("history", .arr ((List.range' 1 7).filterMap
             (fun i =>
               match fetch (histReq loc (Date.fmt (today.subDays i))) with
               | .ok data => some data
               | _ => none)))])) := by
  have hbundle : ∀ d, fetch (forecastReq loc) = .ok d →
      (get_weather_data fetch today cache loc).1 =
        some (.obj
          [("location", d.getD "location" (.obj [])),
           ("current", d.getD "current" (.obj [])),
           ("forecast", d.getD "forecast" (.obj [])),
           ("alerts", d.getD "alerts" (.obj [])),
           ("history", .arr ((List.range' 1 7).filterMap
             (fun i =>
               match fetch (histReq loc (Date.fmt (today.subDays i))) with
               | .ok data => some data
               | _ => none)))]) := by
    intro d hf
    have ht : d.truthy = true := by
      have := hwf (forecastReq loc)
      rw [hf] at this
      simpa only [okTruthy] using this
    simp only [get_weather_data, hmiss, hf]
    rw [get_history_eq fetch loc today 7 hwf]
    simp [ht]
  constructor
  · cases hf : fetch (forecastReq loc) with
    | ok d =>
      rw [hbundle d hf]
      simp [hf]
    | notFound => simp [get_weather_data, hmiss, hf]
    | err => simp [get_weather_data, hmiss, hf]
  · exact hbundle

/-- Witness for C2 in the scenario of the claim: the forecast call
succeeds and two of the seven history calls raise, so the history list the
bundle carries has exactly five entries. -/
theorem weather_bundle_behavior_witness :
    ((get_weather_data denverFetch ⟨2026, 10, 12⟩ [] "Denver").1 = none ↔
      denverFetch (forecastReq "Denver") = .err ∨
      denverFetch (forecastReq "Denver") = .notFound) ∧
    ((List.range' 1 7).filterMap
      (fun i =>
        match denverFetch (histReq "Denver"
            (Date.fmt (Date.subDays ⟨2026, 10, 12⟩ i))) with
        | .ok data => some data
        | _ => none)).length = 5 := by
  constructor
  · exact (weather_bundle_behavior denverFetch ⟨2026, 10, 12⟩ [] "Denver" rfl
      (by
        intro r
        unfold denverFetch
        split_ifs <;> simp [okTruthy, JVal.truthy])).1
  · rfl

/-- Witness for C4 at a concrete search call with one upstream item. -/
theorem search_display_amended_witness :
    (search_locations searchFetchOne [] "London" 10).1 =
      (pySlice [.obj [("name", .str "London"),
                      ("region", .str "City of London, Greater London"),
                      ("country", .str "United Kingdom")]] 10).map
        mkSearchResult ∧
    "London" ++ ", " ++ "Ontario" ++ ", " ++ "Canada" =
      displayJoinNonEmpty "London" "Ontario" "Canada" :=
  ⟨search_display_amended.2.2 searchFetchOne [] "London" 10
    [.obj [("name", .str "London"),
           ("region", .str "City of London, Greater London"),
           ("country", .str "United Kingdom")]]
    (by decide) rfl rfl,
   search_display_amended.2.1 "London" "Ontario" "Canada"
    (by decide) (by decide) (by decide)⟩
